import Mathlib

/-!
Shallow embedding of the resource-operations facade in
`src/rust-install/src/utils/mod.rs`.

Each facade function is translated to a pure Lean function.  The behaviour of
the external platform layer (`std::fs`, `raw::*`, process spawning) is passed
in as an explicit argument describing the outcome of the underlying attempt,
and every facade function additionally returns the list of `Event`s it
produced: a `.notify n` event records a call to `notify_handler.call(n)`, and
an `.attempt op` event records the point at which the underlying platform or
raw-layer operation `op` is attempted.  Error values are built exactly as the
Rust code builds them, so which variants carry the underlying platform cause
and which discard it is visible in the embedding.
-/

namespace Utils

/-- Paths are modelled as strings (the Rust code only ever copies them into
`PathBuf`s; their internal structure is irrelevant to the facade). -/
abbrev Path := String

/-- URLs, likewise, are opaque strings. -/
abbrev Url := String

/-- An opaque underlying platform cause (`std::io::Error` in the source).
The facade never inspects it, only stores or discards it. -/
structure IoErr where
  code : Nat
deriving DecidableEq, Repr

/-- Exit status of a completed process (`std::process::ExitStatus`):
`code = some n` is a normal exit with code `n`, `code = none` is termination
without an exit code (e.g. by signal). -/
structure ExitStatus where
  code : Option Int
deriving DecidableEq, Repr

/-- Rust `ExitStatus::success()`: true exactly when the exit code is 0. -/
def ExitStatus.success (s : ExitStatus) : Bool :=
  s.code = some 0

/-- The notification events constructed in `utils/mod.rs`
(variants of `Notification` in the errors module, with the payloads used at
the construction sites in `mod.rs`). -/
inductive Notification where
  | CreatingDirectory (name : String) (path : Path)
  | DownloadingFile (url : Url) (path : Path)
  | LinkingDirectory (src dest : Path)
  | CopyingDirectory (src dest : Path)
  | RemovingDirectory (name : String) (path : Path)
  | NoCanonicalPath (path : Path)
deriving DecidableEq, Repr

/-- The error variants exactly as constructed in `utils/mod.rs`: an `error`
field is present precisely on the variants whose construction site in the
source stores the underlying cause `e`. -/
inductive Error where
  | CreatingDirectory (name : String) (path : Path) (error : IoErr)
  | ReadingFile (name : String) (path : Path) (error : IoErr)
  | WritingFile (name : String) (path : Path) (error : IoErr)
  | RenamingFile (name : String) (src dest : Path) (error : IoErr)
  | RenamingDirectory (name : String) (src dest : Path) (error : IoErr)
  | FilteringFile (name : String) (src dest : Path) (error : IoErr)
  | DownloadingFile (url : Url) (path : Path)
  | RunningCommand (name : String) (error : IoErr)
  | CommandStatus (name : String) (status : ExitStatus)
  | NotAFile (path : Path)
  | NotADirectory (path : Path)
  | LinkingDirectory (src dest : Path)
  | LinkingFile (src dest : Path)
  | CopyingDirectory (src dest : Path)
  | CopyingFile (src dest : Path)
  | RemovingDirectory (name : String) (path : Path) (error : IoErr)
  | RemovingFile (name : String) (path : Path) (error : IoErr)
  | ReadingDirectory (name : String) (path : Path) (error : IoErr)
  | OpeningBrowser
  | SettingPermissions (path : Path)
  | LocatingHome
deriving DecidableEq, Repr

/-- Structural predicate: does this error variant carry the underlying
platform cause? -/
def Error.carriesCause : Error → Bool
  | .CreatingDirectory _ _ _ => true
  | .ReadingFile _ _ _ => true
  | .WritingFile _ _ _ => true
  | .RenamingFile _ _ _ _ => true
  | .RenamingDirectory _ _ _ _ => true
  | .FilteringFile _ _ _ _ => true
  | .DownloadingFile _ _ => false
  | .RunningCommand _ _ => true
  | .CommandStatus _ _ => true
  | .NotAFile _ => false
  | .NotADirectory _ => false
  | .LinkingDirectory _ _ => false
  | .LinkingFile _ _ => false
  | .CopyingDirectory _ _ => false
  | .CopyingFile _ _ => false
  | .RemovingDirectory _ _ _ => true
  | .RemovingFile _ _ _ => true
  | .ReadingDirectory _ _ _ => true
  | .OpeningBrowser => false
  | .SettingPermissions _ => false
  | .LocatingHome => false

/-- One step of an execution: either a notification delivered to the sink or
the attempt of an underlying platform / raw-layer operation. -/
inductive Event where
  | notify (n : Notification)
  | attempt (op : String)
deriving DecidableEq, Repr

/-- The notifications delivered to the sink, extracted from a trace in
order. -/
def notifications (tr : List Event) : List Notification :=
  tr.filterMap fun e =>
    match e with
    | .notify n => some n
    | .attempt _ => none

/-- The notification `n` occurs in `tr` strictly before some underlying
attempt. -/
def notifiedBeforeAttempt (tr : List Event) (n : Notification) : Prop :=
  ∃ i j, i < j ∧ tr.get? i = some (.notify n) ∧
    ∃ op, tr.get? j = some (.attempt op)

/-- Kind of a filesystem object. -/
inductive FileKind where
  | file
  | dir
  | other
deriving DecidableEq, Repr

/-- A filesystem snapshot: what kind of object, if any, each path holds. -/
abbrev FS := Path → Option FileKind

/-- Modelled from the spec: `raw::is_file` (module `utils::raw`, re-exported by
`mod.rs` but not among the sources) — primitive existence-and-kind check: the
path exists and holds a regular file. -/
def is_file (fs : FS) (path : Path) : Bool :=
  fs path = some .file

/-- Modelled from the spec: `raw::is_directory` (module `utils::raw`, not
among the sources) — primitive existence-and-kind check: the path exists and
holds a directory. -/
def is_directory (fs : FS) (path : Path) : Bool :=
  fs path = some .dir

/-- Modelled from the spec: `raw::ensure_dir_exists` (module `utils::raw`,
not among the sources) — idempotent create-if-missing.  If the path is
already a directory it does nothing and returns `created = false` without
invoking the callback; if the path is absent it invokes the callback with the
path, creates the directory (recursively) and returns `created = true`; if
the path holds a non-directory the creation attempt fails with a platform
cause, and per the spec (notifies only when actually creating) the callback
is not invoked.  Returns the new filesystem, the callback invocations, and
`created`-or-error. -/
def raw.ensure_dir_exists (fs : FS) (path : Path) :
    FS × List Path × Except IoErr Bool :=
  match fs path with
  | some .dir => (fs, [], .ok false)
  | none => (fun p => if p = path then some .dir else fs p, [path], .ok true)
  | some _ => (fs, [], .error ⟨17⟩)

/-- Facade `ensure_dir_exists` from `mod.rs`: delegates to `raw::ensure_dir_exists`
with a callback that notifies `CreatingDirectory(name, p)`, and maps a raw
failure to `Error::CreatingDirectory { name, path, error }`. -/
def ensure_dir_exists (name : String) (path : Path) (fs : FS) :
    FS × List Event × Except Error Bool :=
  let r := raw.ensure_dir_exists fs path
  (r.1,
   Event.attempt "raw::ensure_dir_exists" ::
     r.2.1.map (fun p => Event.notify (.CreatingDirectory name p)),
   r.2.2.mapError fun e => Error.CreatingDirectory name path e)

/-- Facade `read_file` from `mod.rs`: wraps the raw outcome, mapping a failure `e`
to `Error::ReadingFile { name, path, error: e }`. -/
def read_file (name : String) (path : Path) (raw_result : Except IoErr String) :
    Except Error String :=
  raw_result.mapError fun e => Error.ReadingFile name path e

/-- Facade `write_file` from `mod.rs`: wraps the raw outcome, mapping a failure `e`
to `Error::WritingFile { name, path, error: e }`. -/
def write_file (name : String) (path : Path) (contents : String)
    (raw_result : Except IoErr Unit) : Except Error Unit :=
  raw_result.mapError fun e => Error.WritingFile name path e

/-- Facade `append_file` from `mod.rs`: wraps the raw outcome, mapping a failure `e`
to `Error::WritingFile { name, path, error: e }`. -/
def append_file (name : String) (path : Path) (line : String)
    (raw_result : Except IoErr Unit) : Except Error Unit :=
  raw_result.mapError fun e => Error.WritingFile name path e

/-- Facade `rename_file` from `mod.rs`: `fs::rename`, mapping a failure `e` to
`Error::RenamingFile { name, src, dest, error: e }`.  It takes no notify
handler; its trace holds only the underlying attempt. -/
def rename_file (name : String) (src dest : Path)
    (raw_result : Except IoErr Unit) : List Event × Except Error Unit :=
  ([.attempt "fs::rename"],
   raw_result.mapError fun e => Error.RenamingFile name src dest e)

/-- Facade `rename_dir` from `mod.rs`: `fs::rename`, mapping a failure `e` to
`Error::RenamingDirectory { name, src, dest, error: e }`.  No notify
handler. -/
def rename_dir (name : String) (src dest : Path)
    (raw_result : Except IoErr Unit) : List Event × Except Error Unit :=
  ([.attempt "fs::rename"],
   raw_result.mapError fun e => Error.RenamingDirectory name src dest e)

/-- Facade `filter_file` from `mod.rs`: delegates to `raw::filter_file`, mapping a
failure `e` to `Error::FilteringFile { name, src, dest, error: e }`. -/
def filter_file (name : String) (src dest : Path)
    (raw_result : Except IoErr Nat) : Except Error Nat :=
  raw_result.mapError fun e => Error.FilteringFile name src dest e

/-- Facade `match_file` from `mod.rs`: delegates to `raw::match_file`, mapping a
failure `e` to `Error::ReadingFile { name, path: src, error: e }`. -/
def match_file {T : Type} (name : String) (src : Path)
    (raw_result : Except IoErr (Option T)) : Except Error (Option T) :=
  raw_result.mapError fun e => Error.ReadingFile name src e

/-- Facade `canonicalize_path` from `mod.rs`: `fs::canonicalize` with
`unwrap_or_else` — on resolution failure it notifies `NoCanonicalPath(path)`
and falls back to the original path.  The return type is a plain `Path`
(no `Except`): the operation cannot fail the caller.  `resolved` is the
outcome of `fs::canonicalize`. -/
def canonicalize_path (path : Path) (resolved : Option Path) :
    List Event × Path :=
  match resolved with
  | some p => ([.attempt "fs::canonicalize"], p)
  | none =>
    ([.attempt "fs::canonicalize", .notify (.NoCanonicalPath path)], path)

/-- A hash accumulator (`openssl Hasher` in the source): modelled by the
sequence of bytes fed to it, in order. -/
structure Hasher where
  fed : List Nat
deriving DecidableEq, Repr

/-- Feeding one chunk of bytes to a hash accumulator. -/
def Hasher.update (h : Hasher) (chunk : List Nat) : Hasher :=
  ⟨h.fed ++ chunk⟩

/-- Modelled from the spec: `raw::download_file` (module `utils::raw`, not
among the sources) — the streaming download primitive.  Given the successful
stream of chunks arriving from the network, it appends each chunk to the
destination file and feeds it to the hash accumulator (when supplied) as it
arrives.  Returns the destination file contents and the final accumulator. -/
def raw.download_file (stream : List (List Nat)) (hasher : Option Hasher) :
    List Nat × Option Hasher :=
  stream.foldl
    (fun acc chunk => (acc.1 ++ chunk, acc.2.map (fun h => h.update chunk)))
    ([], hasher)

/-- Facade `download_file` from `mod.rs`: notifies `DownloadingFile(url, path)`
first, then attempts `raw::download_file`, discarding the underlying cause
(`map_err(|_| ...)`) into `Error::DownloadingFile { url, path }`.  `outcome`
is `.ok stream` when the underlying download succeeds with that chunk
stream, `.error e` when it fails with cause `e`.  Returns the trace, the
destination contents, the final accumulator, and the result. -/
def download_file (url : Url) (path : Path)
    (outcome : Except IoErr (List (List Nat))) (hasher : Option Hasher) :
    List Event × List Nat × Option Hasher × Except Error Unit :=
  let events := [Event.notify (.DownloadingFile url path),
                 Event.attempt "raw::download_file"]
  match outcome with
  | .error _ => (events, [], hasher, .error (.DownloadingFile url path))
  | .ok stream =>
    let r := raw.download_file stream hasher
    (events, r.1, r.2, .ok ())

/-- Facade `cmd_status` from `mod.rs`: `cmd.status()` launch failure maps to
`Error::RunningCommand { name, error }`; a completed run succeeds iff
`s.success()`, otherwise `Error::CommandStatus { name, status }`. -/
def cmd_status (name : String) (launch : Except IoErr ExitStatus) :
    Except Error Unit :=
  match launch with
  | .error e => .error (.RunningCommand name e)
  | .ok s => if s.success then .ok () else .error (.CommandStatus name s)

/-- Facade `assert_is_file` from `mod.rs`: `Err(NotAFile)` when `!is_file(path)`,
else `Ok`. -/
def assert_is_file (fs : FS) (path : Path) : Except Error Unit :=
  if ¬ is_file fs path then .error (.NotAFile path) else .ok ()

/-- Facade `assert_is_directory` from `mod.rs`: `Err(NotADirectory)` when
`!is_directory(path)`, else `Ok`. -/
def assert_is_directory (fs : FS) (path : Path) : Except Error Unit :=
  if ¬ is_directory fs path then .error (.NotADirectory path) else .ok ()

/-- Facade `symlink_dir` from `mod.rs`: notifies `LinkingDirectory(src, dest)`
first, then attempts `raw::symlink_dir` (an `Option<()>` primitive), mapping
`None` to `Error::LinkingDirectory(src, dest)`. -/
def symlink_dir (src dest : Path) (raw_result : Option Unit) :
    List Event × Except Error Unit :=
  ([.notify (.LinkingDirectory src dest), .attempt "raw::symlink_dir"],
   match raw_result with
   | some _ => .ok ()
   | none => .error (.LinkingDirectory src dest))

/-- Facade `symlink_file` from `mod.rs`: attempts `raw::symlink_file` (an
`Option<()>` primitive), mapping `None` to `Error::LinkingFile(src, dest)`.
No notify handler. -/
def symlink_file (src dest : Path) (raw_result : Option Unit) :
    List Event × Except Error Unit :=
  ([.attempt "raw::symlink_file"],
   match raw_result with
   | some _ => .ok ()
   | none => .error (.LinkingFile src dest))

/-- Facade `hardlink_file` from `mod.rs`: attempts `raw::hardlink` (an `Option<()>`
primitive), mapping `None` to `Error::LinkingFile(src, dest)`.  No notify
handler. -/
def hardlink_file (src dest : Path) (raw_result : Option Unit) :
    List Event × Except Error Unit :=
  ([.attempt "raw::hardlink"],
   match raw_result with
   | some _ => .ok ()
   | none => .error (.LinkingFile src dest))

/-- Facade `copy_dir` from `mod.rs`: notifies `CopyingDirectory(src, dest)` first,
then attempts `raw::copy_dir` (an `Option<()>` primitive), mapping `None` to
`Error::CopyingDirectory(src, dest)`. -/
def copy_dir (src dest : Path) (raw_result : Option Unit) :
    List Event × Except Error Unit :=
  ([.notify (.CopyingDirectory src dest), .attempt "raw::copy_dir"],
   match raw_result with
   | some _ => .ok ()
   | none => .error (.CopyingDirectory src dest))

/-- Facade `copy_file` from `mod.rs`: `fs::copy`, discarding the underlying cause
(`map_err(|_| ...)`) into `Error::CopyingFile(src, dest)` and discarding the
byte count on success.  No notify handler. -/
def copy_file (src dest : Path) (raw_result : Except IoErr Nat) :
    Except Error Unit :=
  (raw_result.mapError fun _ => Error.CopyingFile src dest).map fun _ => ()

/-- Facade `remove_dir` from `mod.rs`: notifies `RemovingDirectory(name, path)`
first, then attempts `fs::remove_dir_all`, mapping a failure `e` to
`Error::RemovingDirectory { name, path, error: e }`. -/
def remove_dir (name : String) (path : Path)
    (raw_result : Except IoErr Unit) : List Event × Except Error Unit :=
  ([.notify (.RemovingDirectory name path), .attempt "fs::remove_dir_all"],
   raw_result.mapError fun e => Error.RemovingDirectory name path e)

/-- Facade `remove_file` from `mod.rs`: `fs::remove_file`, mapping a failure `e` to
`Error::RemovingFile { name, path, error: e }`.  No notify handler. -/
def remove_file (name : String) (path : Path)
    (raw_result : Except IoErr Unit) : List Event × Except Error Unit :=
  ([.attempt "fs::remove_file"],
   raw_result.mapError fun e => Error.RemovingFile name path e)

/-- Facade `read_dir` from `mod.rs`: `fs::read_dir`, mapping a failure `e` to
`Error::ReadingDirectory { name, path, error: e }`.  The directory listing
is modelled as a list of entry paths. -/
def read_dir (name : String) (path : Path)
    (raw_result : Except IoErr (List Path)) : Except Error (List Path) :=
  raw_result.mapError fun e => Error.ReadingDirectory name path e

/-- Facade `open_browser` from `mod.rs`: succeeds only on `Ok(true)` from
`raw::open_browser`; every other outcome (a failure, or `Ok(false)`)
collapses to the detail-free `Error::OpeningBrowser`. -/
def open_browser (path : Path) (raw_result : Except IoErr Bool) :
    Except Error Unit :=
  match raw_result with
  | .ok true => .ok ()
  | _ => .error .OpeningBrowser

/-- Facade `set_permissions` from `mod.rs`: `fs::set_permissions`, discarding the
underlying cause (`map_err(|_| ...)`) into
`Error::SettingPermissions(path)`. -/
def set_permissions (path : Path) (raw_result : Except IoErr Unit) :
    Except Error Unit :=
  raw_result.mapError fun _ => Error.SettingPermissions path

/-- Build-time platform selection (`#[cfg(windows)]` vs
`#[cfg(not(windows))]` in the source). -/
inductive Platform where
  | windows
  | unix
deriving DecidableEq, Repr

/-- Facade `make_executable` from `mod.rs`.  On Windows the inner function is
`Ok(())` and touches nothing.  Elsewhere it reads the metadata
(failure discarded into `Error::SettingPermissions(path)`), ORs `0o111`
into the existing mode, and persists via `set_permissions`.  `metadata_mode`
is the outcome of `fs::metadata(path)` projected to the permission mode;
`set_result` is the outcome of the `fs::set_permissions` call.  The second
component of the result is the mode actually persisted on disk
(`none` when nothing was persisted). -/
def make_executable (platform : Platform) (path : Path)
    (metadata_mode : Except IoErr Nat) (set_result : Except IoErr Unit) :
    Except Error Unit × Option Nat :=
  match platform with
  | .windows => (.ok (), none)
  | .unix =>
    match metadata_mode with
    | .error _ => (.error (.SettingPermissions path), none)
    | .ok mode =>
      let new_mode := mode ||| 0o111
      match set_permissions path set_result with
      | .ok _ => (.ok (), some new_mode)
      | .error e => (.error e, none)

/-- Facade `get_local_data_path` from `mod.rs`.  On Windows:
`get_special_folder(FOLDERID_LocalAppData)`, failure discarded into
`Error::LocatingHome`.  Elsewhere: `home_dir()` and `to_absolute`, with
`None` mapped to `Error::LocatingHome`. -/
def get_local_data_path (platform : Platform)
    (special_folder : Except IoErr Path) (home : Option Path)
    (to_absolute : Path → Option Path) : Except Error Path :=
  match platform with
  | .windows => special_folder.mapError fun _ => Error.LocatingHome
  | .unix =>
    match home.bind to_absolute with
    | some p => .ok p
    | none => .error .LocatingHome

/-- Helper: in a trace of the shape notify-then-attempt, the notification
precedes the attempt. -/
theorem notify_attempt_ordered (n : Notification) (op : String) :
    notifiedBeforeAttempt [Event.notify n, Event.attempt op] n :=
  ⟨0, 1, by omega, rfl, op, rfl⟩

/-- C1: each notifying mutating facade operation (`download_file`,
`remove_dir`, `copy_dir`, `symlink_dir`) delivers its notification to the
sink strictly before the underlying attempt is made.  The trace is computed
before the outcome of the attempt is examined, so it is the same for every
outcome — in particular the sink has observed the event on every execution
in which the operation subsequently returns an error. -/
theorem notify_delivered_before_attempt (url : Url) (path : Path)
    (outcome : Except IoErr (List (List Nat))) (hasher : Option Hasher)
    (name : String) (rm : Except IoErr Unit) (src dest : Path)
    (cp sl : Option Unit) :
    (download_file url path outcome hasher).1 =
        [.notify (.DownloadingFile url path), .attempt "raw::download_file"] ∧
    notifiedBeforeAttempt (download_file url path outcome hasher).1
      (.DownloadingFile url path) ∧
    (remove_dir name path rm).1 =
        [.notify (.RemovingDirectory name path),
         .attempt "fs::remove_dir_all"] ∧
    notifiedBeforeAttempt (remove_dir name path rm).1
      (.RemovingDirectory name path) ∧
    (copy_dir src dest cp).1 =
        [.notify (.CopyingDirectory src dest), .attempt "raw::copy_dir"] ∧
    notifiedBeforeAttempt (copy_dir src dest cp).1
      (.CopyingDirectory src dest) ∧
    (symlink_dir src dest sl).1 =
        [.notify (.LinkingDirectory src dest), .attempt "raw::symlink_dir"] ∧
    notifiedBeforeAttempt (symlink_dir src dest sl).1
      (.LinkingDirectory src dest) := by
  have hdl : (download_file url path outcome hasher).1 =
      [.notify (.DownloadingFile url path), .attempt "raw::download_file"] := by
    cases outcome <;> rfl
  refine ⟨hdl, ?_, rfl, notify_attempt_ordered _ _, rfl,
    notify_attempt_ordered _ _, rfl, notify_attempt_ordered _ _⟩
  rw [hdl]
  exact notify_attempt_ordered _ _

/-- C2: `canonicalize_path` never fails the caller.  When resolution fails
it delivers exactly one no-canonical-path notification and returns the
original path unchanged; when resolution succeeds it returns the resolved
path and delivers no notification.  (Its return type is a plain path, not a
result type: there is no error case at all.) -/
theorem canonicalize_path_never_fails (path q : Path) :
    canonicalize_path path none =
      ([.attempt "fs::canonicalize", .notify (.NoCanonicalPath path)],
       path) ∧
    notifications (canonicalize_path path none).1 = [.NoCanonicalPath path] ∧
    canonicalize_path path (some q) = ([.attempt "fs::canonicalize"], q) ∧
    notifications (canonicalize_path path (some q)).1 = [] :=
  ⟨rfl, rfl, rfl, rfl⟩

/-- C9: `remove_file`, `rename_file` and `rename_dir` deliver no
notification on any execution — for every outcome of the underlying attempt
their trace holds the attempt only, so the sink's observed notification
sequence is empty (hence unchanged) whether the operation succeeds or
fails. -/
theorem no_notification_from_silent_ops (name : String) (path src dest : Path)
    (r1 r2 r3 : Except IoErr Unit) :
    (remove_file name path r1).1 = [.attempt "fs::remove_file"] ∧
    notifications (remove_file name path r1).1 = [] ∧
    (rename_file name src dest r2).1 = [.attempt "fs::rename"] ∧
    notifications (rename_file name src dest r2).1 = [] ∧
    (rename_dir name src dest r3).1 = [.attempt "fs::rename"] ∧
    notifications (rename_dir name src dest r3).1 = [] :=
  ⟨rfl, rfl, rfl, rfl, rfl, rfl⟩

/-- C10: a failed `symlink_file` and a failed `hardlink_file` construct the
very same error value `LinkingFile(src, dest)` — carrying only the two paths
— so the returned error cannot reveal which mechanism failed; and neither
operation ever delivers a notification, on any outcome. -/
theorem link_failures_indistinguishable (src dest : Path) (r : Option Unit) :
    (symlink_file src dest none).2 = .error (.LinkingFile src dest) ∧
    (hardlink_file src dest none).2 = .error (.LinkingFile src dest) ∧
    (symlink_file src dest none).2 = (hardlink_file src dest none).2 ∧
    Error.carriesCause (.LinkingFile src dest) = false ∧
    notifications (symlink_file src dest r).1 = [] ∧
    notifications (hardlink_file src dest r).1 = [] :=
  ⟨rfl, rfl, rfl, rfl, rfl, rfl⟩

/-- C3: `ensure_dir_exists` is idempotent create-if-missing.  When the path
is already a directory it returns `created = false` with no error and no
notification; a notification is delivered only by a call that actually
creates the directory; starting from an absent path, two successive calls
return `created = true` then `created = false`, and the path is a directory
after each of the two calls. -/
theorem ensure_dir_exists_contract (name : String) (path : Path) (fs : FS)
    (hmiss : fs path = none) :
    (∀ fs2 : FS, fs2 path = some .dir →
      ensure_dir_exists name path fs2 =
        (fs2, [.attempt "raw::ensure_dir_exists"], .ok false)) ∧
    (∀ fs2 : FS, (ensure_dir_exists name path fs2).2.2 ≠ .ok true →
      notifications (ensure_dir_exists name path fs2).2.1 = []) ∧
    (ensure_dir_exists name path fs).2.2 = .ok true ∧
    notifications (ensure_dir_exists name path fs).2.1 =
      [.CreatingDirectory name path] ∧
    is_directory (ensure_dir_exists name path fs).1 path = true ∧
    (ensure_dir_exists name path (ensure_dir_exists name path fs).1).2.2 =
      .ok false ∧
    notifications
      (ensure_dir_exists name path (ensure_dir_exists name path fs).1).2.1 =
      [] ∧
    is_directory
      (ensure_dir_exists name path (ensure_dir_exists name path fs).1).1
      path = true := by
  refine ⟨?_, ?_, ?_, ?_, ?_, ?_, ?_, ?_⟩
  · intro fs2 h2
    simp [ensure_dir_exists, raw.ensure_dir_exists, h2, Except.mapError]
  · intro fs2 hne
    rcases h2 : fs2 path with _ | k
    · exact absurd (by
        simp [ensure_dir_exists, raw.ensure_dir_exists, h2,
          Except.mapError]) hne
    · cases k <;> simp_all [ensure_dir_exists, raw.ensure_dir_exists,
        notifications, Except.mapError]
  · simp [ensure_dir_exists, raw.ensure_dir_exists, hmiss, Except.mapError]
  · simp [ensure_dir_exists, raw.ensure_dir_exists, hmiss, notifications]
  · simp [ensure_dir_exists, raw.ensure_dir_exists, hmiss, is_directory]
  · simp [ensure_dir_exists, raw.ensure_dir_exists, hmiss, Except.mapError]
  · simp [ensure_dir_exists, raw.ensure_dir_exists, hmiss, notifications]
  · simp [ensure_dir_exists, raw.ensure_dir_exists, hmiss, is_directory]

/-- Witness for C3 at the concrete empty filesystem and path "d": the first
call creates (`created = true`), the second does not (`created = false`),
and "d" is a directory after both. -/
theorem ensure_dir_exists_contract_witness :
    (ensure_dir_exists "n" "d" (fun _ => none)).2.2 = .ok true ∧
    (ensure_dir_exists "n" "d"
      (ensure_dir_exists "n" "d" (fun _ => none)).1).2.2 = .ok false ∧
    is_directory
      (ensure_dir_exists "n" "d"
        (ensure_dir_exists "n" "d" (fun _ => none)).1).1 "d" = true :=
  ⟨(ensure_dir_exists_contract "n" "d" (fun _ => none) rfl).2.2.1,
   (ensure_dir_exists_contract "n" "d" (fun _ => none) rfl).2.2.2.2.2.1,
   (ensure_dir_exists_contract "n" "d" (fun _ => none) rfl).2.2.2.2.2.2.2⟩

/-- C4: `cmd_status` succeeds exactly when the command launches and exits
with code 0; a launch failure yields `RunningCommand` carrying the name and
the cause, and a completed run with a non-success status yields the distinct
`CommandStatus` error carrying the name and the exit status. -/
theorem cmd_status_contract (name : String)
    (launch : Except IoErr ExitStatus) :
    (cmd_status name launch = .ok () ↔
      ∃ s, launch = .ok s ∧ s.code = some 0) ∧
    (∀ e, launch = .error e →
      cmd_status name launch = .error (.RunningCommand name e)) ∧
    (∀ s, launch = .ok s → s.success = false →
      cmd_status name launch = .error (.CommandStatus name s)) := by
  rcases launch with e | s
  · simp [cmd_status]
  · by_cases h : s.code = some 0 <;>
      simp_all [cmd_status, ExitStatus.success]

/-- Witness for C4 at concrete inputs: exit code 0 succeeds, exit code 1
yields the command-status error, a launch failure yields the
running-command error. -/
theorem cmd_status_contract_witness :
    cmd_status "c" (.ok ⟨some 0⟩) = .ok () ∧
    cmd_status "c" (.ok ⟨some 1⟩) = .error (.CommandStatus "c" ⟨some 1⟩) ∧
    cmd_status "c" (.error ⟨2⟩) = .error (.RunningCommand "c" ⟨2⟩) :=
  ⟨(cmd_status_contract "c" (.ok ⟨some 0⟩)).1.mpr ⟨⟨some 0⟩, rfl, rfl⟩,
   (cmd_status_contract "c" (.ok ⟨some 1⟩)).2.2 ⟨some 1⟩ rfl (by decide),
   (cmd_status_contract "c" (.error ⟨2⟩)).2.1 ⟨2⟩ rfl⟩

/-- C5: on every failing execution, the download, linking, copying,
permission-setting, browser-open and home-location operations construct an
error that carries no underlying cause (only the high-level fact with the
URL/path(s) — the same error value whatever the platform cause was), while
the file/directory read, write, rename, filter and removal operations
construct an error carrying exactly the underlying platform cause. -/
theorem error_cause_asymmetry (name : String) (url : Url)
    (path src dest : Path) (e : IoErr) (hasher : Option Hasher) :
    (download_file url path (.error e) hasher).2.2.2 =
        .error (.DownloadingFile url path) ∧
    Error.carriesCause (.DownloadingFile url path) = false ∧
    (symlink_file src dest none).2 = .error (.LinkingFile src dest) ∧
    (hardlink_file src dest none).2 = .error (.LinkingFile src dest) ∧
    (symlink_dir src dest none).2 = .error (.LinkingDirectory src dest) ∧
    Error.carriesCause (.LinkingFile src dest) = false ∧
    Error.carriesCause (.LinkingDirectory src dest) = false ∧
    copy_file src dest (.error e) = .error (.CopyingFile src dest) ∧
    (copy_dir src dest none).2 = .error (.CopyingDirectory src dest) ∧
    Error.carriesCause (.CopyingFile src dest) = false ∧
    Error.carriesCause (.CopyingDirectory src dest) = false ∧
    set_permissions path (.error e) = .error (.SettingPermissions path) ∧
    Error.carriesCause (.SettingPermissions path) = false ∧
    open_browser path (.error e) = .error .OpeningBrowser ∧
    open_browser path (.ok false) = .error .OpeningBrowser ∧
    Error.carriesCause .OpeningBrowser = false ∧
    get_local_data_path .windows (.error e) none (fun _ => none) =
        .error .LocatingHome ∧
    get_local_data_path .unix (.error e) none (fun _ => none) =
        .error .LocatingHome ∧
    Error.carriesCause .LocatingHome = false ∧
    read_file name path (.error e) = .error (.ReadingFile name path e) ∧
    @match_file Unit name path (.error e) =
        .error (.ReadingFile name path e) ∧
    read_dir name path (.error e) =
        .error (.ReadingDirectory name path e) ∧
    write_file name path "" (.error e) =
        .error (.WritingFile name path e) ∧
    append_file name path "" (.error e) =
        .error (.WritingFile name path e) ∧
    (rename_file name src dest (.error e)).2 =
        .error (.RenamingFile name src dest e) ∧
    (rename_dir name src dest (.error e)).2 =
        .error (.RenamingDirectory name src dest e) ∧
    filter_file name src dest (.error e) =
        .error (.FilteringFile name src dest e) ∧
    (remove_file name path (.error e)).2 =
        .error (.RemovingFile name path e) ∧
    (remove_dir name path (.error e)).2 =
        .error (.RemovingDirectory name path e) ∧
    Error.carriesCause (.ReadingFile name path e) = true ∧
    Error.carriesCause (.ReadingDirectory name path e) = true ∧
    Error.carriesCause (.WritingFile name path e) = true ∧
    Error.carriesCause (.RenamingFile name src dest e) = true ∧
    Error.carriesCause (.RenamingDirectory name src dest e) = true ∧
    Error.carriesCause (.FilteringFile name src dest e) = true ∧
    Error.carriesCause (.RemovingFile name path e) = true ∧
    Error.carriesCause (.RemovingDirectory name path e) = true := by
  repeat' apply And.intro
  all_goals rfl

/-- Helper: unfolding the streaming fold of `raw.download_file` with an
arbitrary destination prefix and accumulator state. -/
theorem raw_download_file_foldl (stream : List (List Nat)) (d : List Nat)
    (h : Hasher) :
    stream.foldl
      (fun acc chunk =>
        (acc.1 ++ chunk, acc.2.map (fun h2 => h2.update chunk)))
      (d, some h) = (d ++ stream.flatten, some ⟨h.fed ++ stream.flatten⟩) := by
  induction stream generalizing d h with
  | nil => obtain ⟨hf⟩ := h; simp
  | cons c cs ih =>
    rw [List.foldl_cons]
    show List.foldl _ (d ++ c, some (h.update c)) cs =
      (d ++ (c :: cs).flatten, some ⟨h.fed ++ (c :: cs).flatten⟩)
    rw [ih]
    simp [Hasher.update, List.flatten_cons, List.append_assoc]

/-- C6: on a successful download with a supplied hash accumulator, the
accumulator is fed exactly the bytes written to the destination, once each,
in stream order: the final accumulator state extends the initial one by
precisely the destination contents, a fresh accumulator ends holding exactly
the destination contents (which are the stream's chunks concatenated in
order), and therefore any digest of the fed bytes equals the same digest of
the bytes present in the destination afterwards. -/
theorem download_hash_matches_destination (url : Url) (path : Path)
    (stream : List (List Nat)) (h : Hasher) (digest : List Nat → Nat) :
    (download_file url path (.ok stream) (some h)).2.2.2 = .ok () ∧
    (download_file url path (.ok stream) (some h)).2.1 = stream.flatten ∧
    (download_file url path (.ok stream) (some h)).2.2.1 =
      some ⟨h.fed ++ (download_file url path (.ok stream) (some h)).2.1⟩ ∧
    (download_file url path (.ok stream) (some ⟨[]⟩)).2.2.1 =
      some ⟨(download_file url path (.ok stream) (some ⟨[]⟩)).2.1⟩ ∧
    ((download_file url path (.ok stream) (some ⟨[]⟩)).2.2.1.map
        (fun h2 => digest h2.fed)) =
      some (digest (download_file url path (.ok stream) (some ⟨[]⟩)).2.1) := by
  have key : ∀ h0 : Hasher,
      raw.download_file stream (some h0) =
        (stream.flatten, some ⟨h0.fed ++ stream.flatten⟩) := fun h0 =>
    raw_download_file_foldl stream [] h0
  refine ⟨rfl, ?_, ?_, ?_, ?_⟩ <;>
    simp [download_file, key, Hasher.update]

/-- C7: `assert_is_file` succeeds exactly when the path holds a regular
file, otherwise it returns the not-a-file error carrying the path;
`assert_is_directory` succeeds exactly when the path holds a directory,
otherwise the not-a-directory error carrying the path; a nonexistent path
fails both checks. -/
theorem assert_kind_contract (fs : FS) (path : Path) :
    (assert_is_file fs path = .ok () ↔ fs path = some .file) ∧
    (fs path ≠ some .file →
      assert_is_file fs path = .error (.NotAFile path)) ∧
    (assert_is_directory fs path = .ok () ↔ fs path = some .dir) ∧
    (fs path ≠ some .dir →
      assert_is_directory fs path = .error (.NotADirectory path)) ∧
    (fs path = none →
      assert_is_file fs path = .error (.NotAFile path) ∧
      assert_is_directory fs path = .error (.NotADirectory path)) := by
  by_cases hf : fs path = some .file <;> by_cases hd : fs path = some .dir <;>
    simp_all [assert_is_file, assert_is_directory, is_file, is_directory]

/-- Witness for C7 at concrete inputs: a path holding a directory fails the
file check with the not-a-file error, and a nonexistent path fails both
checks with the respective errors. -/
theorem assert_kind_contract_witness :
    assert_is_file (fun _ => some .dir) "p" = .error (.NotAFile "p") ∧
    (assert_is_file (fun _ => none) "p" = .error (.NotAFile "p") ∧
     assert_is_directory (fun _ => none) "p" =
       .error (.NotADirectory "p")) :=
  ⟨(assert_kind_contract (fun _ => some .dir) "p").2.1 (by decide),
   (assert_kind_contract (fun _ => none) "p").2.2.2.2 rfl⟩

/-- Helper: the octal mask `0o111` has exactly the three executable bits
(positions 0, 3 and 6) set. -/
theorem testBit_exec_mask (i : Nat) :
    (0o111 : Nat).testBit i =
      (decide (i = 0) || decide (i = 3) || decide (i = 6)) := by
  rcases Nat.lt_or_ge i 7 with hlt | hge
  · interval_cases i <;> decide
  · rw [Nat.testBit_lt_two_pow
      (Nat.lt_of_lt_of_le (by norm_num)
        (Nat.pow_le_pow_right (by norm_num) hge))]
    have h0 : i ≠ 0 := by omega
    have h3 : i ≠ 3 := by omega
    have h6 : i ≠ 6 := by omega
    simp [h0, h3, h6]

/-- C8: `make_executable` is a successful no-op on Windows (no mode is
persisted and no error is possible); on other platforms, whenever the
metadata is readable the mode it persists is exactly the existing mode
bitwise-ORed with `0o111` — the three executable bits become set and every
other bit keeps its previous value. -/
theorem make_executable_or_mask (path : Path) (mode : Nat)
    (meta : Except IoErr Nat) (set_result : Except IoErr Unit) :
    make_executable .windows path meta set_result = (.ok (), none) ∧
    make_executable .unix path (.ok mode) (.ok ()) =
      (.ok (), some (mode ||| 0o111)) ∧
    (∀ m, (make_executable .unix path (.ok mode) set_result).2 = some m →
      m = mode ||| 0o111) ∧
    ((mode ||| 0o111).testBit 0 = true ∧
     (mode ||| 0o111).testBit 3 = true ∧
     (mode ||| 0o111).testBit 6 = true) ∧
    (∀ i, i ≠ 0 → i ≠ 3 → i ≠ 6 →
      (mode ||| 0o111).testBit i = mode.testBit i) := by
  refine ⟨rfl, rfl, ?_, ?_, ?_⟩
  · intro m hm
    rcases set_result with e | u
    · simp [make_executable, set_permissions, Except.mapError] at hm
    · simpa [make_executable, set_permissions, Except.mapError] using hm.symm
  · refine ⟨?_, ?_, ?_⟩ <;> simp [Nat.testBit_or, testBit_exec_mask]
  · intro i h0 h3 h6
    simp [Nat.testBit_or, testBit_exec_mask, h0, h3, h6]

/-- Witness for C8 at a concrete mode `0o644`: the unix branch persists
`0o755`, and bit 1 (a non-executable bit) is unchanged by the mask. -/
theorem make_executable_or_mask_witness :
    (make_executable .unix "p" (.ok 0o644) (.ok ())).2 = some 0o755 ∧
    ((0o644 : Nat) ||| 0o111).testBit 1 = (0o644 : Nat).testBit 1 :=
  ⟨by rw [(make_executable_or_mask "p" 0o644 (.ok 0) (.ok ())).2.1]; decide,
   (make_executable_or_mask "p" 0o644 (.ok 0) (.ok ())).2.2.2.2 1
     (by decide) (by decide) (by decide)⟩

end Utils
